import Mathlib

/-!
Verification of the Pod-manifest YAML validator.

The repository holds three variant implementations of the same validator:
* `src/main.go` — error-propagating (fail-fast) style, functions return the
  first `*ValidationError` or nil; embedded below in namespace `MainGo`.
* `src/unnamed/part_000` — accumulator style, functions return
  `[]ValidationError`; embedded below in namespace `P0`.
* `src/unnamed/part_001` — accumulator style on a `Validator` struct that
  appends pre-formatted strings via `errorf`; embedded below in namespace `P1`.

The parsed YAML tree (`gopkg.in/yaml.v3`'s `yaml.Node`) is modelled as the
inductive `Node`.  A yaml.v3 mapping node stores its children as a flat
`Content` slice alternating key and value; the parser always emits them in
pairs, so the primary model stores mapping children as a list of key/value
pairs.  Flat-slice models of the three lookup loops (with an explicit
out-of-range marker) appear near the end to relate the pair model to the Go
slice indexing.
-/

/-- Model of `yaml.Node`: kind (scalar / mapping / sequence / document),
scalar value, type tag, 1-based source line.  Mapping children are key/value
pairs (yaml.v3 emits `Content` in key,value order). -/
inductive Node where
  | scalar (tag : String) (value : String) (line : Nat)
  | mapping (pairs : List (Node × Node)) (line : Nat)
  | sequence (items : List Node) (line : Nat)
  | document (items : List Node) (line : Nat)

/-- Go `node.Value`: empty for non-scalar nodes. -/
def Node.value : Node → String
  | Node.scalar _ v _ => v
  | _ => ""

/-- Go `node.Tag`: yaml.v3 sets "!!map" / "!!seq" on structured nodes. -/
def Node.tag : Node → String
  | Node.scalar t _ _ => t
  | Node.mapping _ _ => "!!map"
  | Node.sequence _ _ => "!!seq"
  | Node.document _ _ => ""

/-- Go `node.Line`. -/
def Node.line : Node → Nat
  | Node.scalar _ _ l => l
  | Node.mapping _ l => l
  | Node.sequence _ l => l
  | Node.document _ l => l

/-- `node.Kind == yaml.ScalarNode`. -/
def Node.isScalar : Node → Bool
  | Node.scalar _ _ _ => true
  | _ => false

/-- `node.Kind == yaml.MappingNode`. -/
def Node.isMapping : Node → Bool
  | Node.mapping _ _ => true
  | _ => false

/-- `node.Kind == yaml.SequenceNode`. -/
def Node.isSequence : Node → Bool
  | Node.sequence _ _ => true
  | _ => false

/-- `node.Kind == yaml.DocumentNode`. -/
def Node.isDocument : Node → Bool
  | Node.document _ _ => true
  | _ => false

/-- Key/value pairs of a mapping node (`Content` holds no key/value pairs on
the node kinds the validators reach otherwise). -/
def Node.pairsOf : Node → List (Node × Node)
  | Node.mapping ps _ => ps
  | _ => []

/-- Items of a sequence (or document) node. -/
def Node.itemsOf : Node → List Node
  | Node.sequence xs _ => xs
  | Node.document xs _ => xs
  | _ => []

/-- `p` is a prefix of `s` (character lists).  Go's `strings.HasPrefix`
works on bytes, but every pattern the validators use is ASCII, where byte
and character prefixes coincide. -/
def listHasPre : List Char → List Char → Bool
  | _, [] => true
  | [], _ :: _ => false
  | c :: cs, p :: ps => p == c && listHasPre cs ps

/-- Go `strings.HasPrefix`. -/
def strStartsWith (s p : String) : Bool :=
  listHasPre s.toList p.toList

/-- Go `strings.HasSuffix`. -/
def strEndsWith (s p : String) : Bool :=
  listHasPre s.toList.reverse p.toList.reverse

/-- Go `strings.Contains(s, c)` for a one-byte ASCII needle. -/
def strContainsChar (s : String) (c : Char) : Bool :=
  s.toList.contains c

/-- Go `strconv.Atoi`: optional sign, one or more ASCII digits, value must
fit in a signed 64-bit int; `none` models a non-nil error. -/
def atoiCore (digits : List Char) (sign : Int) : Option Int :=
  if digits.isEmpty then none
  else if digits.all Char.isDigit then
    let n : Nat := digits.foldl (fun a c => a * 10 + (c.toNat - 48)) 0
    let v : Int := sign * (n : Int)
    if -(2 ^ 63) ≤ v ∧ v ≤ 2 ^ 63 - 1 then some v else none
  else none

/-- Go `strconv.Atoi` entry point. -/
def atoi? (s : String) : Option Int :=
  match s.toList with
  | '+' :: rest => atoiCore rest 1
  | '-' :: rest => atoiCore rest (-1)
  | l => atoiCore l 1

/-- The snake-case regex `^[a-z][a-z0-9_]*$` compiled by all three variants
(`snakeCaseRe` in main.go, `snakeCaseRegex` in part_000, inline in
part_001). -/
def isValidContainerName (name : String) : Bool :=
  match name.toList with
  | [] => false
  | c :: rest => c.isLower && rest.all (fun ch => ch.isLower || ch.isDigit || ch == '_')

/-- The memory regex `^\d+(Gi|Mi|Ki)$` compiled by all three variants
(`memoryRe` in main.go, `memoryRegex` in part_000, inline in part_001):
a maximal nonempty run of ASCII digits followed by exactly one of the three
unit suffixes. -/
def isValidMemoryFormat (s : String) : Bool :=
  let ds := s.toList.takeWhile Char.isDigit
  let rest := s.toList.dropWhile Char.isDigit
  !ds.isEmpty && (rest == ['G', 'i'] || rest == ['M', 'i'] || rest == ['K', 'i'])

/-- Lookup in the `map[string]*yaml.Node` built by part_000's `parseMapping`
and part_001's `toMap`: the maps are filled front to back with
`m[key.Value] = val`, so a later pair with the same key overrides an earlier
one — the last match wins. -/
def goMapFind (pairs : List (Node × Node)) (key : String) : Option Node :=
  match pairs with
  | [] => none
  | kv :: rest =>
    match goMapFind rest key with
    | some v => some v
    | none => if kv.1.value == key then some kv.2 else none

namespace MainGo

/-- `ValidationError` of src/main.go (`File`, `Line`, `Msg`). -/
structure ValidationError where
  file : String
  line : Nat
  msg : String
deriving DecidableEq, Repr

/-- src/main.go `findNodeByKey`: linear scan of the pair slices in document
order, first match wins. -/
def findNodeByKey (parent : Node) (key : String) : Option Node :=
  match parent with
  | Node.mapping pairs _ => (pairs.find? (fun kv => kv.1.value == key)).map Prod.snd
  | _ => none

/-- src/main.go `requireField`. -/
def requireField (parent : Node) (key : String) : Except String Node :=
  match findNodeByKey parent key with
  | none => Except.error (key ++ " is required")
  | some node => Except.ok node

/-- src/main.go `validateString`. -/
def validateString (node : Node) (field : String) : Except String String :=
  if node.isScalar && node.tag == "!!str" then Except.ok node.value
  else Except.error (field ++ " must be string")

/-- src/main.go `validateInt`: scalars tagged `!!int` — or `!!str` — whose
text parses with `strconv.Atoi` are accepted. -/
def validateInt (node : Node) (field : String) : Except String Int :=
  if !node.isScalar then Except.error (field ++ " must be int")
  else if node.tag == "!!int" then
    match atoi? node.value with
    | some val => Except.ok val
    | none => Except.error (field ++ " must be int")
  else if node.tag == "!!str" then
    match atoi? node.value with
    | some val => Except.ok val
    | none => Except.error (field ++ " must be int")
  else Except.error (field ++ " must be int")

/-- src/main.go `validatePort`.  The Go comment on it says it checks that
the port is within the allowed range, but the body only delegates to
`validateInt` — no range check is performed. -/
def validatePort (node : Node) (field : String) : Except String Int :=
  validateInt node field

/-- Loop body of the labels check inside src/main.go `validateObjectMeta`:
every label value must be a string; the error message is the fixed text
"metadata.labels value must be string". -/
def checkLabelPairs (file : String) (pairs : List (Node × Node)) : Option ValidationError :=
  match pairs with
  | [] => none
  | (_, valNode) :: rest =>
    match validateString valNode "metadata.labels value" with
    | Except.error _ => some ⟨file, valNode.line, "metadata.labels value must be string"⟩
    | Except.ok _ => checkLabelPairs file rest

/-- src/main.go `validateObjectMeta`. -/
def validateObjectMeta (node : Node) (file : String) : Option ValidationError :=
  if !node.isMapping then some ⟨file, node.line, "metadata must be object"⟩ else
  match requireField node "name" with
  | Except.error e => some ⟨file, 0, e⟩
  | Except.ok nameNode =>
  match validateString nameNode "metadata.name" with
  | Except.error e => some ⟨file, nameNode.line, e⟩
  | Except.ok _ =>
  match (match findNodeByKey node "namespace" with
         | some nsNode =>
           match validateString nsNode "metadata.namespace" with
           | Except.error e => some (ValidationError.mk file nsNode.line e)
           | Except.ok _ => none
         | none => none) with
  | some e => some e
  | none =>
  match findNodeByKey node "labels" with
  | some labelsNode =>
    if !labelsNode.isMapping then some ⟨file, labelsNode.line, "metadata.labels must be object"⟩
    else checkLabelPairs file labelsNode.pairsOf
  | none => none

/-- src/main.go `validatePodOS`. -/
def validatePodOS (node : Node) (file : String) : Option ValidationError :=
  if !node.isMapping then some ⟨file, node.line, "os must be object"⟩ else
  match requireField node "name" with
  | Except.error e => some ⟨file, 0, e⟩
  | Except.ok nameNode =>
  match validateString nameNode "spec.os.name" with
  | Except.error e => some ⟨file, nameNode.line, e⟩
  | Except.ok name =>
    if name != "linux" && name != "windows" then
      some ⟨file, nameNode.line, "spec.os.name has unsupported value '" ++ name ++ "'"⟩
    else none

/-- src/main.go `validateHTTPGetAction` (the `pfx` argument is the Go
`prefix` parameter, already ending in ".httpGet" at every call site). -/
def validateHTTPGetAction (node : Node) (pfx file : String) : Option ValidationError :=
  if !node.isMapping then some ⟨file, node.line, pfx ++ ".httpGet must be object"⟩ else
  match requireField node "path" with
  | Except.error e => some ⟨file, 0, pfx ++ "." ++ e⟩
  | Except.ok pathNode =>
  match validateString pathNode (pfx ++ ".path") with
  | Except.error e => some ⟨file, pathNode.line, e⟩
  | Except.ok path =>
  if !(strStartsWith path "/") then
    some ⟨file, pathNode.line, pfx ++ ".path has invalid format '" ++ path ++ "'"⟩
  else
  match requireField node "port" with
  | Except.error e => some ⟨file, 0, pfx ++ "." ++ e⟩
  | Except.ok portNode =>
  match validatePort portNode (pfx ++ ".port") with
  | Except.error e => some ⟨file, portNode.line, e⟩
  | Except.ok _ => none

/-- src/main.go `validateProbe`. -/
def validateProbe (node : Node) (pfx file : String) : Option ValidationError :=
  if !node.isMapping then some ⟨file, node.line, pfx ++ " must be object"⟩ else
  match requireField node "httpGet" with
  | Except.error e => some ⟨file, 0, pfx ++ "." ++ e⟩
  | Except.ok httpGetNode => validateHTTPGetAction httpGetNode (pfx ++ ".httpGet") file

/-- Loop body of the `checkResource` closure in src/main.go
`validateResourceRequirements`: keys other than "cpu"/"memory" are ignored. -/
def checkResourcePairs (file pfx kind : String) (pairs : List (Node × Node)) :
    Option ValidationError :=
  match pairs with
  | [] => none
  | (keyNode, valNode) :: rest =>
    if keyNode.value == "cpu" then
      match validateInt valNode (pfx ++ "." ++ kind ++ ".cpu") with
      | Except.error e => some ⟨file, valNode.line, e⟩
      | Except.ok _ => checkResourcePairs file pfx kind rest
    else if keyNode.value == "memory" then
      match validateString valNode (pfx ++ "." ++ kind ++ ".memory") with
      | Except.error e => some ⟨file, valNode.line, e⟩
      | Except.ok mem =>
        if !isValidMemoryFormat mem then
          some ⟨file, valNode.line, pfx ++ "." ++ kind ++ ".memory has invalid format '" ++ mem ++ "'"⟩
        else checkResourcePairs file pfx kind rest
    else checkResourcePairs file pfx kind rest

/-- The `checkResource` closure of src/main.go `validateResourceRequirements`
applied to a present (non-nil) limits/requests node. -/
def checkResource (file pfx kind : String) (parent : Node) : Option ValidationError :=
  if !parent.isMapping then some ⟨file, parent.line, pfx ++ "." ++ kind ++ " must be object"⟩
  else checkResourcePairs file pfx kind parent.pairsOf

/-- src/main.go `validateResourceRequirements`. -/
def validateResourceRequirements (node : Node) (pfx file : String) : Option ValidationError :=
  if !node.isMapping then some ⟨file, node.line, pfx ++ " must be object"⟩ else
  match (match findNodeByKey node "limits" with
         | some limitsNode => checkResource file pfx "limits" limitsNode
         | none => none) with
  | some e => some e
  | none =>
  match findNodeByKey node "requests" with
  | some requestsNode => checkResource file pfx "requests" requestsNode
  | none => none

/-- src/main.go `validateContainerPort`. -/
def validateContainerPort (node : Node) (file : String) : Option ValidationError :=
  if !node.isMapping then some ⟨file, node.line, "ports item must be object"⟩ else
  match requireField node "containerPort" with
  | Except.error _ => some ⟨file, 0, "containerPort is required"⟩
  | Except.ok containerPortNode =>
  match validatePort containerPortNode "containerPort" with
  | Except.error e => some ⟨file, containerPortNode.line, e⟩
  | Except.ok _ =>
  match findNodeByKey node "protocol" with
  | some protocolNode =>
    match validateString protocolNode "protocol" with
    | Except.error e => some ⟨file, protocolNode.line, e⟩
    | Except.ok proto =>
      if proto != "TCP" && proto != "UDP" then
        some ⟨file, protocolNode.line, "protocol has unsupported value '" ++ proto ++ "'"⟩
      else none
  | none => none

/-- Loop over the ports sequence in src/main.go `validateContainer`. -/
def checkPortItems (file : String) (items : List Node) : Option ValidationError :=
  match items with
  | [] => none
  | portItem :: rest =>
    match validateContainerPort portItem file with
    | some e => some e
    | none => checkPortItems file rest

/-- src/main.go `validateContainer`. -/
def validateContainer (node : Node) (file : String) (index : Nat) : Option ValidationError :=
  if !node.isMapping then
    some ⟨file, node.line, "containers[" ++ toString index ++ "] must be object"⟩ else
  match requireField node "name" with
  | Except.error e => some ⟨file, 0, "containers[" ++ toString index ++ "]." ++ e⟩
  | Except.ok nameNode =>
  match validateString nameNode ("containers[" ++ toString index ++ "].name") with
  | Except.error e => some ⟨file, nameNode.line, e⟩
  | Except.ok name =>
  if !isValidContainerName name then
    some ⟨file, nameNode.line,
      "containers[" ++ toString index ++ "].name has invalid format '" ++ name ++ "'"⟩
  else
  match requireField node "image" with
  | Except.error e => some ⟨file, 0, "containers[" ++ toString index ++ "]." ++ e⟩
  | Except.ok imageNode =>
  match validateString imageNode ("containers[" ++ toString index ++ "].image") with
  | Except.error e => some ⟨file, imageNode.line, e⟩
  | Except.ok image =>
  if !(strStartsWith image "registry.bigbrother.io/") then
    some ⟨file, imageNode.line,
      "containers[" ++ toString index ++ "].image has invalid format '" ++ image ++ "'"⟩
  else if !((image.toList.drop "registry.bigbrother.io/".length).contains ':') then
    some ⟨file, imageNode.line,
      "containers[" ++ toString index ++ "].image has invalid format '" ++ image ++ "'"⟩
  else
  match (match findNodeByKey node "ports" with
         | some portsNode =>
           if !portsNode.isSequence then
             some (ValidationError.mk file portsNode.line "containers[].ports must be array")
           else checkPortItems file portsNode.itemsOf
         | none => none) with
  | some e => some e
  | none =>
  match (match findNodeByKey node "readinessProbe" with
         | some rpNode =>
           validateProbe rpNode ("containers[" ++ toString index ++ "].readinessProbe") file
         | none => none) with
  | some e => some e
  | none =>
  match (match findNodeByKey node "livenessProbe" with
         | some lpNode =>
           validateProbe lpNode ("containers[" ++ toString index ++ "].livenessProbe") file
         | none => none) with
  | some e => some e
  | none =>
  match requireField node "resources" with
  | Except.error e => some ⟨file, 0, "containers[" ++ toString index ++ "]." ++ e⟩
  | Except.ok resourcesNode =>
    validateResourceRequirements resourcesNode
      ("containers[" ++ toString index ++ "].resources") file

/-- Indexed loop over the containers sequence in src/main.go
`validateContainers`. -/
def containersLoop (file : String) (items : List Node) (i : Nat) : Option ValidationError :=
  match items with
  | [] => none
  | c :: rest =>
    match validateContainer c file i with
    | some e => some e
    | none => containersLoop file rest (i + 1)

/-- src/main.go `validateContainers`: an empty sequence is rejected with
"spec.containers is required" (no line). -/
def validateContainers (node : Node) (file : String) : Option ValidationError :=
  if !node.isSequence then some ⟨file, node.line, "spec.containers must be array"⟩
  else if node.itemsOf.isEmpty then some ⟨file, 0, "spec.containers is required"⟩
  else containersLoop file node.itemsOf 0

/-- src/main.go `validatePodSpec`. -/
def validatePodSpec (node : Node) (file : String) : Option ValidationError :=
  if !node.isMapping then some ⟨file, node.line, "spec must be object"⟩ else
  match (match findNodeByKey node "os" with
         | some osNode => validatePodOS osNode file
         | none => none) with
  | some e => some e
  | none =>
  match requireField node "containers" with
  | Except.error e => some ⟨file, 0, "spec." ++ e⟩
  | Except.ok containersNode => validateContainers containersNode file

/-- src/main.go `validateTopLevel`: fail-fast top-level checks — the first
violation found is returned and everything after it is skipped. -/
def validateTopLevel (node : Node) (file : String) : Option ValidationError :=
  match node with
  | Node.document [] _ => some ⟨file, 0, "empty document"⟩
  | Node.document (doc :: _) _ =>
    (if !doc.isMapping then some ⟨file, doc.line, "root must be object"⟩ else
     match requireField doc "apiVersion" with
     | Except.error e => some ⟨file, 0, e⟩
     | Except.ok apiVersionNode =>
     match validateString apiVersionNode "apiVersion" with
     | Except.error e => some ⟨file, apiVersionNode.line, e⟩
     | Except.ok apiVersion =>
     if apiVersion != "v1" then
       some ⟨file, apiVersionNode.line, "apiVersion has unsupported value '" ++ apiVersion ++ "'"⟩
     else
     match requireField doc "kind" with
     | Except.error e => some ⟨file, 0, e⟩
     | Except.ok kindNode =>
     match validateString kindNode "kind" with
     | Except.error e => some ⟨file, kindNode.line, e⟩
     | Except.ok kind =>
     if kind != "Pod" then
       some ⟨file, kindNode.line, "kind has unsupported value '" ++ kind ++ "'"⟩
     else
     match requireField doc "metadata" with
     | Except.error e => some ⟨file, 0, e⟩
     | Except.ok metadataNode =>
     match validateObjectMeta metadataNode file with
     | some e => some e
     | none =>
     match requireField doc "spec" with
     | Except.error e => some ⟨file, 0, e⟩
     | Except.ok specNode => validatePodSpec specNode file)
  | _ => some ⟨file, 0, "expected document node"⟩

end MainGo

namespace P0

/-- `ValidationError` of src/unnamed/part_000 (`Line`, `Message`). -/
structure ValidationError where
  line : Nat
  message : String
deriving DecidableEq, Repr

/-- src/unnamed/part_000 `parseMapping` builds a `map[string]*yaml.Node`
from the mapping's pairs; lookups on it are `goMapFind` (last match wins). -/
def parseMapping (node : Node) : List (Node × Node) :=
  node.pairsOf

/-- src/unnamed/part_000 `validateMetadata`. -/
def validateMetadata (node : Node) : List ValidationError :=
  if !node.isMapping then [⟨node.line, "metadata must be object"⟩] else
  let fields := parseMapping node
  (match goMapFind fields "name" with
   | none => [⟨0, "name is required"⟩]
   | some name =>
     if !name.isScalar then [⟨name.line, "name must be string"⟩]
     else if name.value == "" then [⟨name.line, "name is required"⟩]
     else []) ++
  (match goMapFind fields "namespace" with
   | some ns => if !ns.isScalar then [⟨ns.line, "namespace must be string"⟩] else []
   | none => []) ++
  (match goMapFind fields "labels" with
   | some labels => if !labels.isMapping then [⟨labels.line, "labels must be object"⟩] else []
   | none => [])

/-- src/unnamed/part_000 `validatePodOS` (accepts both the scalar and the
object form of `os`). -/
def validatePodOS (node : Node) : List ValidationError :=
  if node.isScalar then
    (if node.value != "linux" && node.value != "windows" then
      [⟨node.line, "os has unsupported value '" ++ node.value ++ "'"⟩]
    else [])
  else if node.isMapping then
    (match goMapFind (parseMapping node) "name" with
     | none => [⟨0, "name is required"⟩]
     | some name =>
       if !name.isScalar then [⟨name.line, "name must be string"⟩]
       else if name.value != "linux" && name.value != "windows" then
         [⟨name.line, "name has unsupported value '" ++ name.value ++ "'"⟩]
       else [])
  else [⟨node.line, "os must be string or object"⟩]

/-- src/unnamed/part_000 `validateResourceSpec`: cpu is rejected when its
tag is `!!str` (quoted string) or when its text does not parse as an int. -/
def validateResourceSpec (node : Node) (fieldName : String) : List ValidationError :=
  if !node.isMapping then [⟨node.line, fieldName ++ " must be object"⟩] else
  let fields := parseMapping node
  (match goMapFind fields "cpu" with
   | some cpu =>
     if !cpu.isScalar then [⟨cpu.line, "cpu must be int"⟩]
     else if cpu.tag == "!!str" then [⟨cpu.line, "cpu must be int"⟩]
     else match atoi? cpu.value with
       | none => [⟨cpu.line, "cpu must be int"⟩]
       | some _ => []
   | none => []) ++
  (match goMapFind fields "memory" with
   | some memory =>
     if !memory.isScalar then [⟨memory.line, "memory must be string"⟩]
     else if !isValidMemoryFormat memory.value then
       [⟨memory.line, "memory has invalid format '" ++ memory.value ++ "'"⟩]
     else []
   | none => [])

/-- src/unnamed/part_000 `validateResources` (requests first, then limits). -/
def validateResources (node : Node) : List ValidationError :=
  if !node.isMapping then [⟨node.line, "resources must be object"⟩] else
  let fields := parseMapping node
  (match goMapFind fields "requests" with
   | some requests => validateResourceSpec requests "requests"
   | none => []) ++
  (match goMapFind fields "limits" with
   | some limits => validateResourceSpec limits "limits"
   | none => [])

/-- src/unnamed/part_000 `validateContainerPort`: containerPort only needs to
be a scalar that parses with Atoi (the tag is never inspected), then the
range 1..65535 is enforced. -/
def validateContainerPort (node : Node) : List ValidationError :=
  if !node.isMapping then [⟨node.line, "port must be object"⟩] else
  let fields := parseMapping node
  (match goMapFind fields "containerPort" with
   | none => [⟨0, "containerPort is required"⟩]
   | some containerPort =>
     if !containerPort.isScalar then [⟨containerPort.line, "containerPort must be int"⟩]
     else match atoi? containerPort.value with
       | none => [⟨containerPort.line, "containerPort must be int"⟩]
       | some port =>
         if port ≤ 0 ∨ 65536 ≤ port then [⟨containerPort.line, "containerPort value out of range"⟩]
         else []) ++
  (match goMapFind fields "protocol" with
   | some protocol =>
     if !protocol.isScalar then [⟨protocol.line, "protocol must be string"⟩]
     else if protocol.value != "TCP" && protocol.value != "UDP" then
       [⟨protocol.line, "protocol has unsupported value '" ++ protocol.value ++ "'"⟩]
     else []
   | none => [])

/-- Loop over the ports sequence in src/unnamed/part_000
`validateContainerPorts`. -/
def portItemsLoop (items : List Node) : List ValidationError :=
  match items with
  | [] => []
  | p :: rest => validateContainerPort p ++ portItemsLoop rest

/-- src/unnamed/part_000 `validateContainerPorts`. -/
def validateContainerPorts (node : Node) : List ValidationError :=
  if !node.isSequence then [⟨node.line, "ports must be array"⟩]
  else portItemsLoop node.itemsOf

/-- src/unnamed/part_000 `validateHTTPGetAction`. -/
def validateHTTPGetAction (node : Node) : List ValidationError :=
  if !node.isMapping then [⟨node.line, "httpGet must be object"⟩] else
  let fields := parseMapping node
  (match goMapFind fields "path" with
   | none => [⟨0, "path is required"⟩]
   | some path =>
     if !path.isScalar then [⟨path.line, "path must be string"⟩]
     else if !(strStartsWith path.value "/") then
       [⟨path.line, "path has invalid format '" ++ path.value ++ "'"⟩]
     else []) ++
  (match goMapFind fields "port" with
   | none => [⟨0, "port is required"⟩]
   | some port =>
     if !port.isScalar then [⟨port.line, "port must be int"⟩]
     else match atoi? port.value with
       | none => [⟨port.line, "port must be int"⟩]
       | some portNum =>
         if portNum ≤ 0 ∨ 65536 ≤ portNum then [⟨port.line, "port value out of range"⟩]
         else [])

/-- src/unnamed/part_000 `validateProbe`. -/
def validateProbe (node : Node) : List ValidationError :=
  if !node.isMapping then [⟨node.line, "probe must be object"⟩] else
  match goMapFind (parseMapping node) "httpGet" with
  | none => [⟨0, "httpGet is required"⟩]
  | some httpGet => validateHTTPGetAction httpGet

/-- src/unnamed/part_000 `validateContainer`. -/
def validateContainer (node : Node) : List ValidationError :=
  if !node.isMapping then [⟨node.line, "container must be object"⟩] else
  let fields := parseMapping node
  (match goMapFind fields "name" with
   | none => [⟨0, "name is required"⟩]
   | some name =>
     if !name.isScalar then [⟨name.line, "name must be string"⟩]
     else if name.value == "" then [⟨name.line, "name is required"⟩]
     else if !isValidContainerName name.value then
       [⟨name.line, "name has invalid format '" ++ name.value ++ "'"⟩]
     else []) ++
  (match goMapFind fields "image" with
   | none => [⟨0, "image is required"⟩]
   | some image =>
     if !image.isScalar then [⟨image.line, "image must be string"⟩]
     else if !(strStartsWith image.value "registry.bigbrother.io/") then
       [⟨image.line, "image has invalid format '" ++ image.value ++ "'"⟩]
     else if !(strContainsChar image.value ':') || strEndsWith image.value ":" then
       [⟨image.line, "image has invalid format '" ++ image.value ++ "'"⟩]
     else []) ++
  (match goMapFind fields "ports" with
   | some ports => validateContainerPorts ports
   | none => []) ++
  (match goMapFind fields "readinessProbe" with
   | some probe => validateProbe probe
   | none => []) ++
  (match goMapFind fields "livenessProbe" with
   | some probe => validateProbe probe
   | none => []) ++
  (match goMapFind fields "resources" with
   | none => [⟨0, "resources is required"⟩]
   | some resources => validateResources resources)

/-- First-match lookup in the `containerNames map[string]int` of
src/unnamed/part_000 `validateContainers` (each name is inserted at most
once, so the map holds one binding per name). -/
def namesFind (names : List (String × Nat)) (key : String) : Option Nat :=
  match names with
  | [] => none
  | (k, l) :: rest => if k == key then some l else namesFind rest key

/-- Loop of src/unnamed/part_000 `validateContainers`: per-container errors,
then the duplicate-name check.  A duplicate is reported at the line of the
later occurrence and the message retains the line of the first occurrence. -/
def containersLoop (items : List Node) (names : List (String × Nat)) : List ValidationError :=
  match items with
  | [] => []
  | container :: rest =>
    let errs := validateContainer container
    match goMapFind (parseMapping container) "name" with
    | some name =>
      if name.isScalar then
        match namesFind names name.value with
        | some prevLine =>
          errs ++ [⟨name.line, "duplicate container name '" ++ name.value ++
              "' (first defined at line " ++ toString prevLine ++ ")"⟩] ++
            containersLoop rest names
        | none => errs ++ containersLoop rest (names ++ [(name.value, name.line)])
      else errs ++ containersLoop rest names
    | none => errs ++ containersLoop rest names

/-- src/unnamed/part_000 `validateContainers`: no emptiness check — an empty
sequence yields no errors. -/
def validateContainers (node : Node) : List ValidationError :=
  if !node.isSequence then [⟨node.line, "containers must be array"⟩]
  else containersLoop node.itemsOf []

/-- src/unnamed/part_000 `validateSpec` (os first, then containers). -/
def validateSpec (node : Node) : List ValidationError :=
  if !node.isMapping then [⟨node.line, "spec must be object"⟩] else
  let fields := parseMapping node
  (match goMapFind fields "os" with
   | some osNode => validatePodOS osNode
   | none => []) ++
  (match goMapFind fields "containers" with
   | none => [⟨0, "containers is required"⟩]
   | some containers => validateContainers containers)

/-- src/unnamed/part_000 `validatePod`: collect-all over the four required
top-level fields, one "is required" error per missing field. -/
def validatePod (node : Node) : List ValidationError :=
  let fields := parseMapping node
  (match goMapFind fields "apiVersion" with
   | none => [⟨0, "apiVersion is required"⟩]
   | some apiVersion =>
     if !apiVersion.isScalar || apiVersion.value != "v1" then
       [⟨apiVersion.line, "apiVersion has unsupported value '" ++ apiVersion.value ++ "'"⟩]
     else []) ++
  (match goMapFind fields "kind" with
   | none => [⟨0, "kind is required"⟩]
   | some kind =>
     if !kind.isScalar || kind.value != "Pod" then
       [⟨kind.line, "kind has unsupported value '" ++ kind.value ++ "'"⟩]
     else []) ++
  (match goMapFind fields "metadata" with
   | none => [⟨0, "metadata is required"⟩]
   | some metadata => validateMetadata metadata) ++
  (match goMapFind fields "spec" with
   | none => [⟨0, "spec is required"⟩]
   | some spec => validateSpec spec)

end P0

namespace P1

/-- src/unnamed/part_001 `Validator.errorf`: formats one error string,
prefixing the file base name and, when positive, the line. -/
def errorf (base : String) (line : Nat) (msg : String) : List String :=
  if line > 0 then [base ++ ":" ++ toString line ++ " " ++ msg]
  else [base ++ " " ++ msg]

/-- src/unnamed/part_001 `Validator.toMap`: nil for non-mappings, otherwise
the `map[string]*yaml.Node` over the pairs (lookup via `goMapFind`). -/
def toMap (node : Node) : Option (List (Node × Node)) :=
  match node with
  | Node.mapping pairs _ => some pairs
  | _ => none

/-- src/unnamed/part_001 `Validator.validateContainerName`: also threads the
seen-names set (`names` is nil when called from metadata).  The duplicate
message does not mention the first occurrence's line. -/
def validateContainerName (base : String) (node : Node) (names : Option (List String)) :
    List String × Option (List String) :=
  if !node.isScalar then (errorf base node.line "name must be string", names)
  else if node.value == "" then (errorf base node.line "name is required", names)
  else if !isValidContainerName node.value then
    (errorf base node.line ("name has invalid format '" ++ node.value ++ "'"), names)
  else
    match names with
    | none => ([], none)
    | some ns =>
      if ns.contains node.value then
        (errorf base node.line ("name '" ++ node.value ++ "' is not unique"), some ns)
      else ([], some (node.value :: ns))

/-- src/unnamed/part_001 `Validator.validateMetadata`. -/
def validateMetadata (base : String) (node : Node) : List String :=
  match toMap node with
  | none => errorf base node.line "metadata must be a mapping"
  | some fields =>
    (match goMapFind fields "name" with
     | none => errorf base node.line "name is required"
     | some nameNode =>
       if nameNode.value == "" then errorf base nameNode.line "name is required"
       else (validateContainerName base nameNode none).1) ++
    (match goMapFind fields "namespace" with
     | some ns => if !ns.isScalar then errorf base ns.line "namespace must be string" else []
     | none => []) ++
    (match goMapFind fields "labels" with
     | some labels =>
       if !labels.isMapping then errorf base labels.line "labels must be a mapping" else []
     | none => [])

/-- src/unnamed/part_001 `Validator.validatePodOS`. -/
def validatePodOS (base : String) (node : Node) : List String :=
  match toMap node with
  | none => errorf base node.line "os must be a mapping"
  | some fields =>
    match goMapFind fields "name" with
    | none => errorf base node.line "os.name is required"
    | some nameNode =>
      if nameNode.value != "linux" && nameNode.value != "windows" then
        errorf base nameNode.line ("os has unsupported value '" ++ nameNode.value ++ "'")
      else []

/-- src/unnamed/part_001 `Validator.validateImage`: prefix plus a colon
anywhere in the string (the prefix itself holds no colon). -/
def validateImage (base : String) (node : Node) : List String :=
  if !node.isScalar then errorf base node.line "image must be string"
  else if !(strStartsWith node.value "registry.bigbrother.io/") || !(strContainsChar node.value ':') then
    errorf base node.line ("image has invalid format '" ++ node.value ++ "'")
  else []

/-- src/unnamed/part_001 `Validator.validatePort`: only `!!int`-tagged
scalars are accepted, then Atoi, then the range 1..65535. -/
def validatePort (base : String) (node : Node) (field : String) : List String :=
  if node.tag != "!!int" then errorf base node.line (field ++ " must be int")
  else match atoi? node.value with
    | none => errorf base node.line (field ++ " must be int")
    | some port =>
      if port ≤ 0 ∨ 65536 ≤ port then errorf base node.line (field ++ " value out of range")
      else []

/-- src/unnamed/part_001 `Validator.validateContainerPort`. -/
def validateContainerPort (base : String) (node : Node) : List String :=
  match toMap node with
  | none => errorf base node.line "port must be a mapping"
  | some fields =>
    (match goMapFind fields "containerPort" with
     | none => errorf base node.line "containerPort is required"
     | some cpNode => validatePort base cpNode "containerPort") ++
    (match goMapFind fields "protocol" with
     | some proto =>
       if proto.value != "TCP" && proto.value != "UDP" then
         errorf base proto.line ("protocol has unsupported value '" ++ proto.value ++ "'")
       else []
     | none => [])

/-- Loop over the ports sequence in src/unnamed/part_001
`Validator.validatePorts`. -/
def portsLoop (base : String) (items : List Node) : List String :=
  match items with
  | [] => []
  | p :: rest => validateContainerPort base p ++ portsLoop base rest

/-- src/unnamed/part_001 `Validator.validatePorts`. -/
def validatePorts (base : String) (node : Node) : List String :=
  if !node.isSequence then errorf base node.line "ports must be a sequence"
  else portsLoop base node.itemsOf

/-- src/unnamed/part_001 `Validator.validateHTTPGet`. -/
def validateHTTPGet (base : String) (node : Node) : List String :=
  match toMap node with
  | none => errorf base node.line "httpGet must be a mapping"
  | some fields =>
    (match goMapFind fields "path" with
     | none => errorf base node.line "path is required"
     | some pathNode =>
       if !(strStartsWith pathNode.value "/") then
         errorf base pathNode.line ("path has invalid format '" ++ pathNode.value ++ "'")
       else []) ++
    (match goMapFind fields "port" with
     | none => errorf base node.line "port is required"
     | some portNode => validatePort base portNode "port")

/-- src/unnamed/part_001 `Validator.validateProbe`. -/
def validateProbe (base : String) (node : Node) : List String :=
  match toMap node with
  | none => errorf base node.line "probe must be a mapping"
  | some fields =>
    match goMapFind fields "httpGet" with
    | none => errorf base node.line "httpGet is required"
    | some httpGet => validateHTTPGet base httpGet

/-- src/unnamed/part_001 `Validator.validateResourceMap`: cpu accepts only
`!!int`-tagged scalars whose text parses with Atoi. -/
def validateResourceMap (base : String) (node : Node) : List String :=
  match toMap node with
  | none => errorf base node.line "resource section must be a mapping"
  | some fields =>
    (match goMapFind fields "cpu" with
     | some cpu =>
       if cpu.tag != "!!int" then errorf base cpu.line "cpu must be int"
       else match atoi? cpu.value with
         | none => errorf base cpu.line "cpu must be int"
         | some _ => []
     | none => []) ++
    (match goMapFind fields "memory" with
     | some mem =>
       if !mem.isScalar then errorf base mem.line "memory must be string"
       else if !isValidMemoryFormat mem.value then
         errorf base mem.line ("memory has invalid format '" ++ mem.value ++ "'")
       else []
     | none => [])

/-- src/unnamed/part_001 `Validator.validateResources` (limits, then
requests). -/
def validateResources (base : String) (node : Node) : List String :=
  match toMap node with
  | none => errorf base node.line "resources must be a mapping"
  | some fields =>
    (match goMapFind fields "limits" with
     | some r => validateResourceMap base r
     | none => []) ++
    (match goMapFind fields "requests" with
     | some r => validateResourceMap base r
     | none => [])

/-- src/unnamed/part_001 `Validator.validateContainer` (order: name, image,
resources, ports, probes; the name check threads the seen-names set). -/
def validateContainer (base : String) (node : Node) (names : Option (List String)) :
    List String × Option (List String) :=
  match toMap node with
  | none => (errorf base node.line "container must be a mapping", names)
  | some fields =>
    let nameRes : List String × Option (List String) :=
      match goMapFind fields "name" with
      | none => (errorf base node.line "name is required", names)
      | some nameNode =>
        if nameNode.value == "" then (errorf base nameNode.line "name is required", names)
        else validateContainerName base nameNode names
    let imageErrs : List String :=
      match goMapFind fields "image" with
      | none => errorf base node.line "image is required"
      | some imgNode =>
        if imgNode.value == "" then errorf base imgNode.line "image is required"
        else validateImage base imgNode
    let resErrs : List String :=
      match goMapFind fields "resources" with
      | none => errorf base node.line "resources is required"
      | some resNode => validateResources base resNode
    let portErrs : List String :=
      match goMapFind fields "ports" with
      | some ports => validatePorts base ports
      | none => []
    let probeErrs : List String :=
      (match goMapFind fields "readinessProbe" with
       | some probe => validateProbe base probe
       | none => []) ++
      (match goMapFind fields "livenessProbe" with
       | some probe => validateProbe base probe
       | none => [])
    (nameRes.1 ++ imageErrs ++ resErrs ++ portErrs ++ probeErrs, nameRes.2)

/-- Loop of src/unnamed/part_001 `Validator.validateContainers`, threading
the seen-names set through the containers. -/
def containersLoop (base : String) (items : List Node) (names : Option (List String)) :
    List String :=
  match items with
  | [] => []
  | c :: rest =>
    let r := validateContainer base c names
    r.1 ++ containersLoop base rest r.2

/-- src/unnamed/part_001 `Validator.validateContainers`: no emptiness check —
an empty sequence yields no errors. -/
def validateContainers (base : String) (node : Node) : List String :=
  if !node.isSequence then errorf base node.line "containers must be a sequence"
  else containersLoop base node.itemsOf (some [])

/-- src/unnamed/part_001 `Validator.validateSpec` (containers first, then
os). -/
def validateSpec (base : String) (node : Node) : List String :=
  match toMap node with
  | none => errorf base node.line "spec must be a mapping"
  | some fields =>
    (match goMapFind fields "containers" with
     | none => errorf base node.line "containers is required"
     | some containers => validateContainers base containers) ++
    (match goMapFind fields "os" with
     | some osNode => validatePodOS base osNode
     | none => [])

/-- Body of the loop over `required` in src/unnamed/part_001
`Validator.validateTopLevel`. -/
def checkRequired (base : String) (doc : Node) (fields : List (Node × Node)) (f : String) :
    List String :=
  match goMapFind fields f with
  | none => errorf base doc.line (f ++ " is required")
  | some node =>
    if f == "apiVersion" then
      (if node.value != "v1" then
        errorf base node.line ("apiVersion has unsupported value '" ++ node.value ++ "'")
      else [])
    else if f == "kind" then
      (if node.value != "Pod" then
        errorf base node.line ("kind has unsupported value '" ++ node.value ++ "'")
      else [])
    else if f == "metadata" then validateMetadata base node
    else if f == "spec" then validateSpec base node
    else []

/-- src/unnamed/part_001 `Validator.validateTopLevel`: collect-all loop over
the four required top-level fields. -/
def validateTopLevel (base : String) (doc : Node) : List String :=
  if !doc.isMapping then errorf base doc.line "root must be a mapping"
  else
    let fields := (toMap doc).getD []
    checkRequired base doc fields "apiVersion" ++ checkRequired base doc fields "kind" ++
      checkRequired base doc fields "metadata" ++ checkRequired base doc fields "spec"

end P1

/-- Flattened `Content` slice of a mapping node whose children are key/value
pairs, exactly as yaml.v3 lays them out. -/
def flatOfPairs (pairs : List (Node × Node)) : List Node :=
  match pairs with
  | [] => []
  | (k, v) :: rest => k :: v :: flatOfPairs rest

/-- The loop of src/main.go `findNodeByKey` over the raw `Content` slice,
index arithmetic made explicit: `some (some v)` — key found, value returned;
`some none` — loop finished, nil returned; `none` — the access
`Content[i+1]` was out of range (a Go panic). -/
def findLoopFlat : List Node → String → Option (Option Node)
  | [], _ => some none
  | [k], key => if k.value == key then none else some none
  | k :: v :: rest, key => if k.value == key then some (some v) else findLoopFlat rest key

/-- The loop of src/unnamed/part_000 `parseMapping` (and of part_001
`toMap`) over the raw `Content` slice: `none` marks the out-of-range access
`Content[i+1]` (a Go panic) on a slice of odd length. -/
def parseLoopFlat : List Node → Option (List (Node × Node))
  | [] => some []
  | [_] => none
  | k :: v :: rest => (parseLoopFlat rest).map (fun ps => (k, v) :: ps)

/-! ## Claim C1 — collect-all vs. fail-fast for missing top-level fields -/

/-- C1 (amended): in the accumulator variants the result for a document
missing all of apiVersion, kind, metadata and spec contains exactly one
Diagnostic per missing field, each naming that field as required
(part_000 `validatePod` and part_001 `validateTopLevel`); main.go's
`validateTopLevel` instead short-circuits at the first missing field. -/
theorem c1_missing_required_fields_collect_all
    (pairs : List (Node × Node)) (line : Nat) (base : String)
    (h1 : goMapFind pairs "apiVersion" = none) (h2 : goMapFind pairs "kind" = none)
    (h3 : goMapFind pairs "metadata" = none) (h4 : goMapFind pairs "spec" = none) :
    P0.validatePod (Node.mapping pairs line) =
      [⟨0, "apiVersion is required"⟩, ⟨0, "kind is required"⟩,
       ⟨0, "metadata is required"⟩, ⟨0, "spec is required"⟩]
    ∧ P1.validateTopLevel base (Node.mapping pairs line) =
        P1.errorf base line "apiVersion is required" ++ P1.errorf base line "kind is required" ++
          P1.errorf base line "metadata is required" ++ P1.errorf base line "spec is required" := by
  constructor
  · simp [P0.validatePod, P0.parseMapping, Node.pairsOf, h1, h2, h3, h4]
  · simp [P1.validateTopLevel, P1.toMap, P1.checkRequired, Node.isMapping, Node.line,
      h1, h2, h3, h4]

/-- C1 witness: the empty document root, instantiating the theorem. -/
theorem c1_missing_required_fields_collect_all_witness :
    goMapFind [] "apiVersion" = none ∧
    P0.validatePod (Node.mapping [] 1) =
      [⟨0, "apiVersion is required"⟩, ⟨0, "kind is required"⟩,
       ⟨0, "metadata is required"⟩, ⟨0, "spec is required"⟩] :=
  ⟨rfl, (c1_missing_required_fields_collect_all [] 1 "pod.yaml" rfl rfl rfl rfl).1⟩

/-- C1 counterexample: on a document missing all four required top-level
fields, src/main.go `validateTopLevel` returns only the first violation
("apiVersion is required") — not one Diagnostic per missing field. -/
theorem c1_fail_fast_counterexample :
    MainGo.validateTopLevel (Node.document [Node.mapping [] 1] 1) "pod.yaml" =
      some ⟨"pod.yaml", 0, "apiVersion is required"⟩ := by rfl

/-! ## Claim C2 — quoted numeric strings in integer-declared fields -/

/-- C2 (amended): part_001's `validatePort` (used for containerPort and
httpGet.port) and its cpu check in `validateResourceMap` accept only
`!!int`-tagged scalars and reject a quoted numeric string with a
"must be int" Diagnostic, as does part_000's cpu check; main.go's
`validateInt` instead also coerces `!!str` scalars whose text parses,
and part_000's port checks never inspect the tag at all. -/
theorem c2_quoted_string_int_rejected (base field v : String) (line cl : Nat) :
    P1.validatePort base (Node.scalar "!!str" v line) field =
      P1.errorf base line (field ++ " must be int")
    ∧ P1.validateResourceMap base
        (Node.mapping [(Node.scalar "!!str" "cpu" line, Node.scalar "!!str" v cl)] line) =
        P1.errorf base cl "cpu must be int"
    ∧ P0.validateResourceSpec
        (Node.mapping [(Node.scalar "!!str" "cpu" line, Node.scalar "!!str" v cl)] line)
        "limits" = [⟨cl, "cpu must be int"⟩] := by
  refine ⟨?_, ?_, ?_⟩
  · simp [P1.validatePort, Node.tag, Node.line]
  · simp [P1.validateResourceMap, P1.toMap, goMapFind, Node.value, Node.tag, Node.line,
      Node.isScalar]
  · simp [P0.validateResourceSpec, P0.parseMapping, Node.pairsOf, goMapFind, Node.value,
      Node.tag, Node.line, Node.isScalar, Node.isMapping]

/-- C2 counterexample: main.go's `validateInt` (hence `validatePort`)
accepts the `!!str`-tagged scalar "8080" — a quoted numeric string — and
returns 8080 instead of a "must be int" Diagnostic. -/
theorem c2_maingo_coerces_counterexample :
    MainGo.validatePort (Node.scalar "!!str" "8080" 3) "containerPort" = Except.ok 8080
    ∧ P0.validateContainerPort
        (Node.mapping [(Node.scalar "!!str" "containerPort" 3, Node.scalar "!!str" "8080" 3)] 3) =
        [] :=
  ⟨rfl, by rfl⟩

/-! ## Claim C3 — port range 1..65535 -/

/-- C3: part_000 and part_001 enforce the range — 0 and 70000 yield
"<field> value out of range" and 8080 yields no Diagnostic — but
src/main.go's `validatePort` (whose own comment says it checks that the
port is within the allowed range) performs no range check at all: it
returns `Except.ok 70000` and `Except.ok 0` with no error. -/
theorem c3_port_range_check :
    P0.validateContainerPort
        (Node.mapping [(Node.scalar "!!str" "containerPort" 2, Node.scalar "!!int" "0" 2)] 2) =
      [⟨2, "containerPort value out of range"⟩]
    ∧ P0.validateContainerPort
        (Node.mapping [(Node.scalar "!!str" "containerPort" 2, Node.scalar "!!int" "70000" 2)] 2) =
      [⟨2, "containerPort value out of range"⟩]
    ∧ P0.validateContainerPort
        (Node.mapping [(Node.scalar "!!str" "containerPort" 2, Node.scalar "!!int" "8080" 2)] 2) =
      []
    ∧ P1.validatePort "f" (Node.scalar "!!int" "0" 2) "containerPort" =
      ["f:2 containerPort value out of range"]
    ∧ P1.validatePort "f" (Node.scalar "!!int" "70000" 2) "containerPort" =
      ["f:2 containerPort value out of range"]
    ∧ P1.validatePort "f" (Node.scalar "!!int" "8080" 2) "containerPort" = []
    ∧ P1.validatePort "f" (Node.scalar "!!int" "70000" 4) "port" =
      ["f:4 port value out of range"]
    ∧ MainGo.validatePort (Node.scalar "!!int" "70000" 2) "containerPort" = Except.ok 70000
    ∧ MainGo.validatePort (Node.scalar "!!int" "0" 2) "containerPort" = Except.ok 0 := by
  refine ⟨by rfl, by rfl, by rfl, by rfl, by rfl, by rfl, by rfl, rfl, rfl⟩

/-! ## Claim C4 — duplicate container names -/

/-- An otherwise fully valid container mapping whose name scalar is `nm` on
line `l`. -/
def mkNamedContainer (nm : String) (l : Nat) : Node :=
  Node.mapping
    [(Node.scalar "!!str" "name" l, Node.scalar "!!str" nm l),
     (Node.scalar "!!str" "image" l, Node.scalar "!!str" "registry.bigbrother.io/app:1.0" l),
     (Node.scalar "!!str" "resources" l, Node.mapping [] l)] l

/-- C4 (amended): part_000's `validateContainers` reports a duplicate
container name at the line of the second (later) occurrence and its message
retains the first occurrence's line; part_001 reports at the second
occurrence's line but its message omits the first line; main.go performs no
uniqueness check at all. -/
theorem c4_duplicate_name_second_line (nm : String) (l1 l2 : Nat)
    (h : isValidContainerName nm = true) :
    P0.validateContainers (Node.sequence [mkNamedContainer nm l1, mkNamedContainer nm l2] 0) =
      [⟨l2, "duplicate container name '" ++ nm ++ "' (first defined at line " ++
        toString l1 ++ ")"⟩] := by
  have hne : (nm == "") = false := by
    cases hc : nm == "" with
    | false => rfl
    | true =>
      exfalso
      have : nm = "" := by exact eq_of_beq hc
      rw [this] at h
      exact absurd h (by decide)
  have himg1 : strStartsWith "registry.bigbrother.io/app:1.0" "registry.bigbrother.io/" = true := by
    decide
  have himg2 : strContainsChar "registry.bigbrother.io/app:1.0" ':' = true := by decide
  have himg3 : strEndsWith "registry.bigbrother.io/app:1.0" ":" = false := by decide
  simp [P0.validateContainers, P0.containersLoop, P0.validateContainer, P0.parseMapping,
    Node.pairsOf, goMapFind, Node.value, Node.isScalar, Node.isMapping, Node.isSequence,
    Node.itemsOf, Node.line, Node.tag, P0.namesFind, P0.validateResources, mkNamedContainer,
    h, hne, himg1, himg2, himg3]

/-- C4 witness: two containers named "web" at lines 3 and 7. -/
theorem c4_duplicate_name_second_line_witness :
    isValidContainerName "web" = true ∧
    P0.validateContainers (Node.sequence [mkNamedContainer "web" 3, mkNamedContainer "web" 7] 0) =
      [⟨7, "duplicate container name 'web' (first defined at line 3)"⟩] := by
  refine ⟨by decide, ?_⟩
  rw [c4_duplicate_name_second_line "web" 3 7 (by decide)]
  rfl

/-- C4 counterexample: on the same duplicate-name input, main.go's
`validateContainers` reports nothing at all, and part_001's Diagnostic
("name 'web' is not unique") does not mention the first occurrence's
line 3. -/
theorem c4_no_uniqueness_counterexample :
    MainGo.validateContainers
        (Node.sequence [mkNamedContainer "web" 3, mkNamedContainer "web" 7] 0) "f" = none
    ∧ P1.validateContainers "f"
        (Node.sequence [mkNamedContainer "web" 3, mkNamedContainer "web" 7] 0) =
        ["f:7 name 'web' is not unique"] :=
  ⟨rfl, rfl⟩

/-! ## Claim C5 — duplicate keys in one mapping: which pair wins -/

/-- C5 (amended, positive part): src/main.go `findNodeByKey` is a linear
scan in document order and the first matching pair wins. -/
theorem c5_findNodeByKey_first_match (pre post : List (Node × Node)) (kn v : Node)
    (key : String) (line : Nat)
    (hpre : ∀ kv ∈ pre, kv.1.value ≠ key) (hk : kn.value = key) :
    MainGo.findNodeByKey (Node.mapping (pre ++ (kn, v) :: post) line) key = some v := by
  induction pre with
  | nil =>
    simp only [MainGo.findNodeByKey, List.nil_append]
    rw [List.find?_cons_of_pos _ (by simpa using hk)]
    rfl
  | cons hd tl ih =>
    simp only [MainGo.findNodeByKey, List.cons_append]
    rw [List.find?_cons_of_neg _ (by simpa using hpre hd (List.mem_cons_self _ _))]
    simpa [MainGo.findNodeByKey] using
      ih (fun kv hkv => hpre kv (List.mem_cons_of_mem _ hkv))

/-- C5 witness: first match returned past a non-matching pair. -/
theorem c5_findNodeByKey_first_match_witness :
    (∀ kv ∈ [((Node.scalar "!!str" "other" 1 : Node), (Node.scalar "!!str" "x" 1 : Node))],
        kv.1.value ≠ "cpu")
    ∧ MainGo.findNodeByKey
        (Node.mapping [(Node.scalar "!!str" "other" 1, Node.scalar "!!str" "x" 1),
                       (Node.scalar "!!str" "cpu" 2, Node.scalar "!!int" "4" 2),
                       (Node.scalar "!!str" "cpu" 3, Node.scalar "!!str" "9" 3)] 1) "cpu" =
        some (Node.scalar "!!int" "4" 2) := by
  refine ⟨by decide, ?_⟩
  exact c5_findNodeByKey_first_match
    [(Node.scalar "!!str" "other" 1, Node.scalar "!!str" "x" 1)]
    [(Node.scalar "!!str" "cpu" 3, Node.scalar "!!str" "9" 3)]
    (Node.scalar "!!str" "cpu" 2) (Node.scalar "!!int" "4" 2) "cpu" 1 (by decide) rfl

/-- C5 counterexample: the map-building variants let the LAST duplicate win,
not the first — `goMapFind` (part_000 `parseMapping` / part_001 `toMap`)
returns the second pair's value, and part_001's cpu validation of a
duplicate-key mapping is decided by the second occurrence (the first
occurrence alone is valid, yet a Diagnostic is produced). -/
theorem c5_last_match_counterexample :
    goMapFind [(Node.scalar "!!str" "cpu" 1, Node.scalar "!!int" "4" 1),
               (Node.scalar "!!str" "cpu" 2, Node.scalar "!!str" "9" 2)] "cpu" =
      some (Node.scalar "!!str" "9" 2)
    ∧ MainGo.findNodeByKey
        (Node.mapping [(Node.scalar "!!str" "cpu" 1, Node.scalar "!!int" "4" 1),
                       (Node.scalar "!!str" "cpu" 2, Node.scalar "!!str" "9" 2)] 1) "cpu" =
        some (Node.scalar "!!int" "4" 1)
    ∧ P1.validateResourceMap "f"
        (Node.mapping [(Node.scalar "!!str" "cpu" 1, Node.scalar "!!int" "4" 1),
                       (Node.scalar "!!str" "cpu" 2, Node.scalar "!!str" "9" 2)] 1) =
        ["f:2 cpu must be int"]
    ∧ P1.validateResourceMap "f"
        (Node.mapping [(Node.scalar "!!str" "cpu" 1, Node.scalar "!!int" "4" 1)] 1) = [] :=
  ⟨rfl, rfl, rfl, rfl⟩

/-! ## Claim C6 — image format -/

/-- A container mapping with valid name and resources whose image scalar is
`img` on line 2. -/
def mkImageContainer (img : String) : Node :=
  Node.mapping
    [(Node.scalar "!!str" "name" 1, Node.scalar "!!str" "app" 1),
     (Node.scalar "!!str" "image" 2, Node.scalar "!!str" img 2),
     (Node.scalar "!!str" "resources" 3, Node.mapping [] 3)] 1

/-- C6 (amended): every variant accepts an image iff it starts with
"registry.bigbrother.io/" and contains a colon after that prefix — so a
missing tag separator ("registry.bigbrother.io/app") and a wrong registry
("docker.io/app:1.0") are rejected and "registry.bigbrother.io/app:1.0" is
accepted — but the empty-tag image "registry.bigbrother.io/app:" is
accepted by main.go and part_001 (only part_000's trailing-colon check
rejects it), and an empty registry path "registry.bigbrother.io/:1.0" is
accepted by all three, so the spec regex `[^:]+:.+` is not enforced. -/
theorem c6_image_format_checks :
    MainGo.validateContainer (mkImageContainer "registry.bigbrother.io/app:1.0") "f" 0 = none
    ∧ MainGo.validateContainer (mkImageContainer "registry.bigbrother.io/app") "f" 0 =
        some ⟨"f", 2, "containers[0].image has invalid format 'registry.bigbrother.io/app'"⟩
    ∧ MainGo.validateContainer (mkImageContainer "docker.io/app:1.0") "f" 0 =
        some ⟨"f", 2, "containers[0].image has invalid format 'docker.io/app:1.0'"⟩
    ∧ MainGo.validateContainer (mkImageContainer "registry.bigbrother.io/app:") "f" 0 = none
    ∧ MainGo.validateContainer (mkImageContainer "registry.bigbrother.io/:1.0") "f" 0 = none
    ∧ P0.validateContainer (mkImageContainer "registry.bigbrother.io/app:1.0") = []
    ∧ P0.validateContainer (mkImageContainer "registry.bigbrother.io/app") =
        [⟨2, "image has invalid format 'registry.bigbrother.io/app'"⟩]
    ∧ P0.validateContainer (mkImageContainer "registry.bigbrother.io/app:") =
        [⟨2, "image has invalid format 'registry.bigbrother.io/app:'"⟩]
    ∧ P0.validateContainer (mkImageContainer "registry.bigbrother.io/:1.0") = []
    ∧ P1.validateImage "f" (Node.scalar "!!str" "registry.bigbrother.io/app:" 2) = []
    ∧ P1.validateImage "f" (Node.scalar "!!str" "registry.bigbrother.io/app" 2) =
        ["f:2 image has invalid format 'registry.bigbrother.io/app'"]
    ∧ P1.validateImage "f" (Node.scalar "!!str" "docker.io/app:1.0" 2) =
        ["f:2 image has invalid format 'docker.io/app:1.0'"] :=
  ⟨rfl, rfl, rfl, rfl, rfl, by rfl, by rfl, by rfl, by rfl, rfl, rfl, rfl⟩

/-- C6 counterexample: the claim requires an invalid-format Diagnostic for
the empty-tag image "registry.bigbrother.io/app:"; main.go's
`validateContainer` and part_001's `validateImage` accept it with no
Diagnostic. -/
theorem c6_empty_tag_accepted_counterexample :
    MainGo.validateContainer (mkImageContainer "registry.bigbrother.io/app:") "f" 0 = none
    ∧ P1.validateImage "f" (Node.scalar "!!str" "registry.bigbrother.io/app:" 2) = [] :=
  ⟨rfl, rfl⟩

/-! ## Claim C7 — empty containers sequence -/

/-- C7 (amended): main.go's `validateContainers` rejects a present but empty
containers sequence ("spec.containers is required", no line); part_000 and
part_001 accept an empty containers sequence with no Diagnostic. -/
theorem c7_empty_containers_rejected_maingo (line : Nat) (file : String) :
    MainGo.validateContainers (Node.sequence [] line) file =
      some ⟨file, 0, "spec.containers is required"⟩ := by
  simp [MainGo.validateContainers, Node.isSequence, Node.itemsOf]

/-- A complete, otherwise valid Pod document whose spec.containers is an
empty sequence. -/
def emptyContainersDoc : Node :=
  Node.mapping
    [(Node.scalar "!!str" "apiVersion" 1, Node.scalar "!!str" "v1" 1),
     (Node.scalar "!!str" "kind" 2, Node.scalar "!!str" "Pod" 2),
     (Node.scalar "!!str" "metadata" 3,
        Node.mapping [(Node.scalar "!!str" "name" 4, Node.scalar "!!str" "mypod" 4)] 4),
     (Node.scalar "!!str" "spec" 5,
        Node.mapping [(Node.scalar "!!str" "containers" 6, Node.sequence [] 6)] 6)] 1

/-- C7 counterexample: the same complete document with `containers: []` is
fully accepted (zero Diagnostics) by part_000's `validatePod` and part_001's
`validateTopLevel` — an empty containers list IS accepted as valid there. -/
theorem c7_empty_containers_accepted_counterexample :
    P0.validatePod emptyContainersDoc = [] ∧ P1.validateTopLevel "f" emptyContainersDoc = [] :=
  ⟨by rfl, rfl⟩

/-! ## Claim C8 — memory format -/

/-- Splitting lemma: if every element of `d` satisfies `p` and `u` does not
start with an element satisfying `p`, then `takeWhile`/`dropWhile` on
`d ++ u` recover exactly `d` and `u`. -/
theorem listTakeDropWhileAppend (p : Char → Bool) (d u : List Char)
    (hd : ∀ c ∈ d, p c = true) (hu : ∀ c, u.head? = some c → p c = false) :
    (d ++ u).takeWhile p = d ∧ (d ++ u).dropWhile p = u := by
  induction d with
  | nil =>
    cases u with
    | nil => simp
    | cons c cs =>
      have hc := hu c rfl
      simp [List.takeWhile_cons, List.dropWhile_cons, hc]
  | cons c cs ih =>
    have hc : p c = true := hd c (by simp)
    have ihr := ih (fun x hx => hd x (by simp [hx]))
    simp [List.takeWhile_cons, List.dropWhile_cons, hc, ihr.1, ihr.2]

/-- C8: a memory value is accepted exactly when it matches
`^\d+(Gi|Mi|Ki)$` — a nonempty run of digits followed by one of the three
units; "512Mi" is accepted while "512" (no unit) and "512Xi" (unknown unit)
draw an invalid-format Diagnostic, in part_001's `validateResourceMap` and
in main.go's resources check alike. -/
theorem c8_memory_format (s : String) :
    (isValidMemoryFormat s = true ↔
      ∃ d u : List Char, s.toList = d ++ u ∧ d ≠ [] ∧ (∀ c ∈ d, c.isDigit = true) ∧
        (u = ['G', 'i'] ∨ u = ['M', 'i'] ∨ u = ['K', 'i']))
    ∧ (∀ base l0 lm, P1.validateResourceMap base
          (Node.mapping [(Node.scalar "!!str" "memory" l0, Node.scalar "!!str" s lm)] l0) =
          if isValidMemoryFormat s then []
          else P1.errorf base lm ("memory has invalid format '" ++ s ++ "'"))
    ∧ (∀ file pfx kind l0 lm, MainGo.checkResource file pfx kind
          (Node.mapping [(Node.scalar "!!str" "memory" l0, Node.scalar "!!str" s lm)] l0) =
          if isValidMemoryFormat s then none
          else some ⟨file, lm, pfx ++ "." ++ kind ++ ".memory has invalid format '" ++ s ++ "'"⟩)
    ∧ isValidMemoryFormat "512Mi" = true
    ∧ isValidMemoryFormat "512" = false
    ∧ isValidMemoryFormat "512Xi" = false := by
  refine ⟨⟨?_, ?_⟩, ?_, ?_, by decide, by decide, by decide⟩
  · intro h
    unfold isValidMemoryFormat at h
    simp only [Bool.and_eq_true, Bool.not_eq_true', Bool.or_eq_true, beq_iff_eq] at h
    obtain ⟨hne, hu⟩ := h
    refine ⟨s.toList.takeWhile Char.isDigit, s.toList.dropWhile Char.isDigit,
      (List.takeWhile_append_dropWhile _ _).symm, ?_, ?_, (or_assoc.mp hu)⟩
    · intro hnil
      rw [hnil] at hne
      simp at hne
    · intro c hc
      exact List.mem_takeWhile_imp hc
  · rintro ⟨d, u, hs, hd, hdig, hu⟩
    have hhead : ∀ c, u.head? = some c → Char.isDigit c = false := by
      rcases hu with h | h | h <;> subst h <;> intro c hc <;>
        simp only [List.head?_cons, Option.some.injEq] at hc <;> subst hc <;> decide
    have hsplit := listTakeDropWhileAppend Char.isDigit d u hdig hhead
    unfold isValidMemoryFormat
    rw [hs, hsplit.1, hsplit.2]
    simp only [Bool.and_eq_true, Bool.not_eq_true', Bool.or_eq_true, beq_iff_eq]
    exact ⟨by simpa using hd, (or_assoc.mpr hu)⟩
  · intro base l0 lm
    cases h : isValidMemoryFormat s with
    | true =>
      simp [P1.validateResourceMap, P1.toMap, goMapFind, Node.value, Node.isScalar,
        Node.tag, Node.line, h]
    | false =>
      simp [P1.validateResourceMap, P1.toMap, goMapFind, Node.value, Node.isScalar,
        Node.tag, Node.line, h]
  · intro file pfx kind l0 lm
    cases h : isValidMemoryFormat s with
    | true =>
      simp [MainGo.checkResource, MainGo.checkResourcePairs, MainGo.validateString,
        Node.pairsOf, Node.value, Node.isScalar, Node.tag, Node.line, Node.isMapping, h]
    | false =>
      simp [MainGo.checkResource, MainGo.checkResourcePairs, MainGo.validateString,
        Node.pairsOf, Node.value, Node.isScalar, Node.tag, Node.line, Node.isMapping, h]

/-! ## Claim C9 — totality on malformed input -/

/-- On a key/value-paired `Content` slice — what the yaml.v3 parser always
produces — the Go loop of src/main.go `findNodeByKey` never reaches the
out-of-range access and computes exactly the pair-model lookup. -/
theorem findLoopFlat_pairs (pairs : List (Node × Node)) (key : String) :
    findLoopFlat (flatOfPairs pairs) key =
      some ((pairs.find? (fun kv => kv.1.value == key)).map Prod.snd) := by
  induction pairs with
  | nil => rfl
  | cons kv rest ih =>
    obtain ⟨k, v⟩ := kv
    cases hk : k.value == key with
    | true =>
      simp only [flatOfPairs, findLoopFlat, hk]
      rw [List.find?_cons_of_pos _ (by simpa using hk)]
      rfl
    | false =>
      simp only [flatOfPairs, findLoopFlat, hk]
      rw [List.find?_cons_of_neg _ (by simp [hk])]
      simpa using ih

/-- On a key/value-paired `Content` slice the loop of part_000
`parseMapping` / part_001 `toMap` never reaches the out-of-range access and
recovers exactly the pairs. -/
theorem parseLoopFlat_pairs (pairs : List (Node × Node)) :
    parseLoopFlat (flatOfPairs pairs) = some pairs := by
  induction pairs with
  | nil => rfl
  | cons kv rest ih =>
    obtain ⟨k, v⟩ := kv
    simp [flatOfPairs, parseLoopFlat, ih]

/-- Any even-length `Content` slice is scanned by `findNodeByKey`'s loop
without a panic. -/
theorem findLoopFlat_even_isSome :
    ∀ (content : List Node), content.length % 2 = 0 →
      ∀ key, (findLoopFlat content key).isSome = true
  | [], _, _ => rfl
  | [_], h, _ => by simp at h
  | k :: v :: rest, h, key => by
    have hrest : rest.length % 2 = 0 := by
      simp only [List.length_cons] at h
      omega
    cases hk : k.value == key with
    | true => simp [findLoopFlat, hk]
    | false =>
      simp only [findLoopFlat, hk]
      exact findLoopFlat_even_isSome rest hrest key

/-- Any even-length `Content` slice is converted by `parseMapping`/`toMap`'s
loop without a panic. -/
theorem parseLoopFlat_even_isSome :
    ∀ (content : List Node), content.length % 2 = 0 →
      (parseLoopFlat content).isSome = true
  | [], _ => rfl
  | [_], h => by simp at h
  | _ :: _ :: rest, h => by
    have hrest : rest.length % 2 = 0 := by
      simp only [List.length_cons] at h
      omega
    have ih := parseLoopFlat_even_isSome rest hrest
    cases hp : parseLoopFlat rest with
    | none => rw [hp] at ih; simp at ih
    | some ps => simp [parseLoopFlat, hp]

/-- part_001 `validatePort` turns an unparseable scalar into a "must be int"
Diagnostic (the Atoi error branch is guarded). -/
theorem validatePort_p1_atoi_guarded (base tag v : String) (line : Nat) (field : String)
    (hatoi : atoi? v = none) :
    P1.validatePort base (Node.scalar tag v line) field =
      P1.errorf base line (field ++ " must be int") := by
  unfold P1.validatePort
  simp only [Node.tag, Node.value, Node.line]
  cases htag : (tag != "!!int") with
  | true => simp [htag]
  | false => simp [htag, hatoi]

/-- main.go `validateInt` turns an unparseable scalar into a "must be int"
error for every tag (both Atoi error branches are guarded). -/
theorem validateInt_maingo_atoi_guarded (tag v : String) (line : Nat) (field : String)
    (hatoi : atoi? v = none) :
    MainGo.validateInt (Node.scalar tag v line) field =
      Except.error (field ++ " must be int") := by
  unfold MainGo.validateInt
  simp only [Node.tag, Node.value, Node.line, Node.isScalar]
  cases h1 : (tag == "!!int") with
  | true => simp [h1, hatoi]
  | false =>
    cases h2 : (tag == "!!str") with
    | true => simp [h1, h2, hatoi]
    | false => simp [h1, h2]

/-- C9: validation is total and panic-free on every tree the parser can
hand over, and violations land in the result instead of aborting: on
key/value-paired mapping content (yaml.v3's invariant; any even-length
`Content` slice suffices) the only raw slice indexing in the validators —
`findNodeByKey`'s loop and the `parseMapping`/`toMap` loop — never reaches
an out-of-range access and agrees with the pair model, and the integer-parse
error branches produce "must be int" Diagnostics instead of failing, for
wrong node kinds, missing children and non-numeric scalars alike. -/
theorem c9_validation_total_no_panic :
    (∀ pairs key, findLoopFlat (flatOfPairs pairs) key =
        some ((pairs.find? (fun kv => kv.1.value == key)).map Prod.snd))
    ∧ (∀ pairs, parseLoopFlat (flatOfPairs pairs) = some pairs)
    ∧ (∀ content, content.length % 2 = 0 → ∀ key, (findLoopFlat content key).isSome = true)
    ∧ (∀ content, content.length % 2 = 0 → (parseLoopFlat content).isSome = true)
    ∧ (∀ base tag v line field, atoi? v = none →
        P1.validatePort base (Node.scalar tag v line) field =
          P1.errorf base line (field ++ " must be int"))
    ∧ (∀ tag v line field, atoi? v = none →
        MainGo.validateInt (Node.scalar tag v line) field =
          Except.error (field ++ " must be int")) :=
  ⟨findLoopFlat_pairs, parseLoopFlat_pairs, findLoopFlat_even_isSome, parseLoopFlat_even_isSome,
   fun base tag v line field h => validatePort_p1_atoi_guarded base tag v line field h,
   fun tag v line field h => validateInt_maingo_atoi_guarded tag v line field h⟩

/-- C9 witness: a malformed-but-paired tree (string scalar where an int is
required) is handled without panic and with a Diagnostic. -/
theorem c9_validation_total_no_panic_witness :
    ([Node.scalar "!!str" "k" 1, Node.scalar "!!str" "v" 1] : List Node).length % 2 = 0
    ∧ (findLoopFlat [Node.scalar "!!str" "k" 1, Node.scalar "!!str" "v" 1] "k").isSome = true
    ∧ atoi? "abc" = none
    ∧ P1.validatePort "f" (Node.scalar "!!int" "abc" 3) "port" =
        P1.errorf "f" 3 "port must be int" :=
  ⟨by decide,
   c9_validation_total_no_panic.2.2.1 [Node.scalar "!!str" "k" 1, Node.scalar "!!str" "v" 1]
     (by decide) "k",
   by decide,
   c9_validation_total_no_panic.2.2.2.2.1 "f" "!!int" "abc" 3 "port" (by decide)⟩

/-! ## Claim C10 — unknown keys are silently ignored -/

/-- Inserting a pair whose key differs from `key` anywhere into a pair list
leaves `goMapFind` unchanged. -/
theorem goMapFind_insert (pre post : List (Node × Node)) (kn v : Node) (key : String)
    (h : (kn.value == key) = false) :
    goMapFind (pre ++ (kn, v) :: post) key = goMapFind (pre ++ post) key := by
  induction pre with
  | nil =>
    simp only [List.nil_append, goMapFind]
    cases hg : goMapFind post key with
    | some w => rfl
    | none => simp [h]
  | cons hd tl ih =>
    simp only [List.cons_append, goMapFind, List.append_eq, ih]

/-- Inserting a pair whose key differs from `key` anywhere into a mapping
leaves main.go's `findNodeByKey` unchanged. -/
theorem findNodeByKey_insert (pre post : List (Node × Node)) (kn v : Node) (key : String)
    (line : Nat) (h : (kn.value == key) = false) :
    MainGo.findNodeByKey (Node.mapping (pre ++ (kn, v) :: post) line) key =
      MainGo.findNodeByKey (Node.mapping (pre ++ post) line) key := by
  simp only [MainGo.findNodeByKey]
  congr 1
  induction pre with
  | nil =>
    simp only [List.nil_append]
    rw [List.find?_cons_of_neg _ (by simp [h])]
  | cons hd tl ih =>
    simp only [List.cons_append]
    cases hp : (hd.1.value == key) with
    | true =>
      rw [List.find?_cons_of_pos _ (by simpa using hp),
        List.find?_cons_of_pos _ (by simpa using hp)]
    | false =>
      rw [List.find?_cons_of_neg _ (by simp [hp]), List.find?_cons_of_neg _ (by simp [hp]), ih]

/-- Inserting a pair keyed neither "cpu" nor "memory" anywhere into the
iterated resource pairs leaves main.go's `checkResource` loop unchanged
(the unknown key falls into the ignoring default branch). -/
theorem checkResourcePairs_insert (file pfx kind : String) (pre post : List (Node × Node))
    (kn v : Node) (h1 : (kn.value == "cpu") = false) (h2 : (kn.value == "memory") = false) :
    MainGo.checkResourcePairs file pfx kind (pre ++ (kn, v) :: post) =
      MainGo.checkResourcePairs file pfx kind (pre ++ post) := by
  induction pre with
  | nil =>
    simp only [List.nil_append, MainGo.checkResourcePairs, h1, h2]
    simp
  | cons hd tl ih =>
    obtain ⟨hk, hv⟩ := hd
    simp only [List.cons_append, MainGo.checkResourcePairs, List.append_eq, ih]

/-- C10: adding a pair with an unknown key (distinct from every schema key
of that mapping) to a resources limits/requests mapping (main.go), to a
container mapping (part_000 and part_001), to the document root (part_000)
or to metadata (part_000) produces no Diagnostic and leaves the validation
result unchanged. -/
theorem c10_unknown_keys_ignored :
    (∀ file pfx kind pre post (kn v : Node) line,
      kn.value ≠ "cpu" → kn.value ≠ "memory" →
      MainGo.checkResource file pfx kind (Node.mapping (pre ++ (kn, v) :: post) line) =
        MainGo.checkResource file pfx kind (Node.mapping (pre ++ post) line))
    ∧ (∀ pre post (kn v : Node) line,
        kn.value ∉ (["name", "image", "ports", "readinessProbe", "livenessProbe",
          "resources"] : List String) →
        P0.validateContainer (Node.mapping (pre ++ (kn, v) :: post) line) =
          P0.validateContainer (Node.mapping (pre ++ post) line))
    ∧ (∀ base names pre post (kn v : Node) line,
        kn.value ∉ (["name", "image", "ports", "readinessProbe", "livenessProbe",
          "resources"] : List String) →
        P1.validateContainer base (Node.mapping (pre ++ (kn, v) :: post) line) names =
          P1.validateContainer base (Node.mapping (pre ++ post) line) names)
    ∧ (∀ pre post (kn v : Node) line,
        kn.value ∉ (["apiVersion", "kind", "metadata", "spec"] : List String) →
        P0.validatePod (Node.mapping (pre ++ (kn, v) :: post) line) =
          P0.validatePod (Node.mapping (pre ++ post) line))
    ∧ (∀ pre post (kn v : Node) line,
        kn.value ∉ (["name", "namespace", "labels"] : List String) →
        P0.validateMetadata (Node.mapping (pre ++ (kn, v) :: post) line) =
          P0.validateMetadata (Node.mapping (pre ++ post) line)) := by
  refine ⟨?_, ?_, ?_, ?_, ?_⟩
  · intro file pfx kind pre post kn v line h1 h2
    simp only [MainGo.checkResource, Node.isMapping, Node.pairsOf, Node.line]
    exact checkResourcePairs_insert file pfx kind pre post kn v
      (beq_eq_false_iff_ne.mpr h1) (beq_eq_false_iff_ne.mpr h2)
  · intro pre post kn v line h
    have hx : ∀ k, k ∈ (["name", "image", "ports", "readinessProbe", "livenessProbe",
        "resources"] : List String) → (kn.value == k) = false :=
      fun k hk => beq_eq_false_iff_ne.mpr (fun e => h (e ▸ hk))
    have h1 := goMapFind_insert pre post kn v "name" (hx _ (by simp))
    have h2 := goMapFind_insert pre post kn v "image" (hx _ (by simp))
    have h3 := goMapFind_insert pre post kn v "ports" (hx _ (by simp))
    have h4 := goMapFind_insert pre post kn v "readinessProbe" (hx _ (by simp))
    have h5 := goMapFind_insert pre post kn v "livenessProbe" (hx _ (by simp))
    have h6 := goMapFind_insert pre post kn v "resources" (hx _ (by simp))
    simp only [P0.validateContainer, P0.parseMapping, Node.pairsOf, Node.isMapping, Node.line,
      h1, h2, h3, h4, h5, h6]
  · intro base names pre post kn v line h
    have hx : ∀ k, k ∈ (["name", "image", "ports", "readinessProbe", "livenessProbe",
        "resources"] : List String) → (kn.value == k) = false :=
      fun k hk => beq_eq_false_iff_ne.mpr (fun e => h (e ▸ hk))
    have h1 := goMapFind_insert pre post kn v "name" (hx _ (by simp))
    have h2 := goMapFind_insert pre post kn v "image" (hx _ (by simp))
    have h3 := goMapFind_insert pre post kn v "ports" (hx _ (by simp))
    have h4 := goMapFind_insert pre post kn v "readinessProbe" (hx _ (by simp))
    have h5 := goMapFind_insert pre post kn v "livenessProbe" (hx _ (by simp))
    have h6 := goMapFind_insert pre post kn v "resources" (hx _ (by simp))
    simp only [P1.validateContainer, P1.toMap, Node.line, h1, h2, h3, h4, h5, h6]
  · intro pre post kn v line h
    have hx : ∀ k, k ∈ (["apiVersion", "kind", "metadata", "spec"] : List String) →
        (kn.value == k) = false :=
      fun k hk => beq_eq_false_iff_ne.mpr (fun e => h (e ▸ hk))
    have h1 := goMapFind_insert pre post kn v "apiVersion" (hx _ (by simp))
    have h2 := goMapFind_insert pre post kn v "kind" (hx _ (by simp))
    have h3 := goMapFind_insert pre post kn v "metadata" (hx _ (by simp))
    have h4 := goMapFind_insert pre post kn v "spec" (hx _ (by simp))
    simp only [P0.validatePod, P0.parseMapping, Node.pairsOf, h1, h2, h3, h4]
  · intro pre post kn v line h
    have hx : ∀ k, k ∈ (["name", "namespace", "labels"] : List String) →
        (kn.value == k) = false :=
      fun k hk => beq_eq_false_iff_ne.mpr (fun e => h (e ▸ hk))
    have h1 := goMapFind_insert pre post kn v "name" (hx _ (by simp))
    have h2 := goMapFind_insert pre post kn v "namespace" (hx _ (by simp))
    have h3 := goMapFind_insert pre post kn v "labels" (hx _ (by simp))
    simp only [P0.validateMetadata, P0.parseMapping, Node.pairsOf, Node.isMapping, Node.line,
      h1, h2, h3]

/-- C10 witness: a concrete unknown key inside a limits mapping and inside a
document root changes nothing. -/
theorem c10_unknown_keys_ignored_witness :
    (("unknownKey" : String) ≠ "cpu")
    ∧ MainGo.checkResource "f" "p" "limits"
        (Node.mapping [(Node.scalar "!!str" "unknownKey" 2, Node.scalar "!!int" "7" 2)] 1) =
      MainGo.checkResource "f" "p" "limits" (Node.mapping [] 1)
    ∧ P0.validatePod
        (Node.mapping [(Node.scalar "!!str" "extra" 2, Node.scalar "!!str" "x" 2)] 1) =
      P0.validatePod (Node.mapping [] 1) :=
  ⟨by decide,
   c10_unknown_keys_ignored.1 "f" "p" "limits" [] []
     (Node.scalar "!!str" "unknownKey" 2) (Node.scalar "!!int" "7" 2) 1
     (by decide) (by decide),
   c10_unknown_keys_ignored.2.2.2.1 [] [] (Node.scalar "!!str" "extra" 2)
     (Node.scalar "!!str" "x" 2) 1 (by decide)⟩
